import Mathlib

/-!
# IBC Tendermint light client: header check and state update

A shallow embedding of `x/ibc/07-tendermint/types/update.go`
(`CheckHeaderAndUpdateState`, `checkTrustedHeader`, `checkValidity`, `update`)
and of the two nested-resource queries of
`x/ibc/03-connection/client/utils/utils.go` (`QueryConnectionClientState`,
`QueryConnectionConsensusState`), and theorems about them.

Conventions of the embedding
* `uint64` values are `Nat`, `int64` values are `Int`; the conversion
  `uint64(x)` is `x % 2^64`.
* `time.Time` and `time.Duration` are integers counting nanoseconds.
* Byte slices are lists of numbers; `bytes.Equal` is list equality.
* Functions of other packages (the host key builder, the validator-set hash,
  the light-client verification) are the fields of `Imports`, and those the
  queries call are the fields of `QueryImports`; every theorem that does not
  say otherwise holds for all of them.
* A Go panic is the outcome `Outcome.panicked`.
* The client store and a trace of the calls made are carried in a `World`.
-/

namespace ibc

/-- A byte slice. -/
abbrev Bytes := List Nat

/-- Go `time.Time`, in nanoseconds. -/
abbrev Time := Int

/-- Go `time.Duration`, in nanoseconds. -/
abbrev Duration := Int

/-- The conversion `uint64(x)` of an `int64` value. -/
def uint64 (x : Int) : Nat := (x % ((2 ^ 64 : Nat) : Int)).toNat

/-- The conversion `int64(x)` of a `uint64` value (two's complement). -/
def int64 (x : Nat) : Int :=
  if x % 2 ^ 64 < 2 ^ 63 then ((x % 2 ^ 64 : Nat) : Int)
  else ((x % 2 ^ 64 : Nat) : Int) - ((2 ^ 64 : Nat) : Int)

/-! ## Types of the Tendermint library -/

namespace tmtypes

/-- One validator of a validator set. -/
structure Validator where
  Address : Bytes
  PubKey : Bytes
  VotingPower : Int
deriving DecidableEq, Repr

/-- The type `tmtypes.ValidatorSet`. -/
structure ValidatorSet where
  Validators : List Validator
deriving DecidableEq, Repr

/-- The type `tmtypes.Header`, with the fields a light client reads. -/
structure Header where
  ChainID : String
  Height : Int
  Time : Time
  ValidatorsHash : Bytes
  NextValidatorsHash : Bytes
  AppHash : Bytes
deriving DecidableEq, Repr

/-- The type `tmtypes.Commit`: the signatures over a block. -/
structure Commit where
  Height : Int
  BlockHash : Bytes
  Signatures : List Bytes
deriving DecidableEq, Repr

/-- The type `tmtypes.SignedHeader`. The header pointer is taken non-nil; the
commit pointer may be nil. -/
structure SignedHeader where
  Header : Header
  Commit : Option Commit
deriving DecidableEq, Repr

end tmtypes

/-- The type `tmmath.Fraction`. -/
structure TmFraction where
  Numerator : Int
  Denominator : Int
deriving DecidableEq, Repr

/-! ## Types of the client -/

/-- The trust level of a client. -/
structure Fraction where
  Numerator : Int
  Denominator : Int
deriving DecidableEq, Repr

/-- Modelled from the spec: Fraction.ToTendermint (fraction.go is not among the
sources); the same fraction as a value of the Tendermint library. -/
def Fraction.ToTendermint (f : Fraction) : TmFraction :=
  { Numerator := f.Numerator, Denominator := f.Denominator }

/-- A proof specification of the commitment scheme, kept as its encoding. -/
structure ProofSpec where
  encoded : Bytes
deriving DecidableEq, Repr

/-- The type `commitmenttypes.MerkleRoot`. -/
structure MerkleRoot where
  Hash : Bytes
deriving DecidableEq, Repr

/-- Modelled from the spec: commitmenttypes.NewMerkleRoot (package 23-commitment
is not among the sources); the commitment root that wraps a state root. -/
def NewMerkleRoot (hash : Bytes) : MerkleRoot := { Hash := hash }

/-- The Tendermint client state. -/
structure ClientState where
  ChainID : String
  TrustLevel : Fraction
  TrustingPeriod : Duration
  UnbondingPeriod : Duration
  MaxClockDrift : Duration
  LatestHeight : Nat
  ProofSpecs : List ProofSpec
deriving DecidableEq, Repr

/-- Modelled from the spec: ClientState.GetChainID (client_state.go is not
among the sources); the chain identifier of the client. -/
def ClientState.GetChainID (cs : ClientState) : String := cs.ChainID

/-- The Tendermint consensus state. -/
structure ConsensusState where
  Timestamp : Time
  Root : MerkleRoot
  Height : Nat
  NextValidatorsHash : Bytes
deriving DecidableEq, Repr

/-- The Tendermint header of the client: a signed header (embedded), its
validator set, and the trusted height and validators it is checked against. -/
structure Header where
  SignedHeader : tmtypes.SignedHeader
  ValidatorSet : tmtypes.ValidatorSet
  TrustedHeight : Nat
  TrustedValidators : tmtypes.ValidatorSet
deriving DecidableEq, Repr

/-- The promoted field `header.Height` of the embedded signed header. -/
def Header.Height (h : Header) : Int := h.SignedHeader.Header.Height

/-- The promoted field `header.Time`. -/
def Header.Time (h : Header) : Time := h.SignedHeader.Header.Time

/-- The promoted field `header.AppHash`. -/
def Header.AppHash (h : Header) : Bytes := h.SignedHeader.Header.AppHash

/-- The promoted field `header.NextValidatorsHash`. -/
def Header.NextValidatorsHash (h : Header) : Bytes := h.SignedHeader.Header.NextValidatorsHash

/-- Modelled from the spec: Header.GetHeight (header.go is not among the
sources); the target height of the header as the unsigned number that `update`
stores, `uint64(header.Height)`. -/
def Header.GetHeight (h : Header) : Nat := uint64 h.Height

/-- The interface `clientexported.Header`: a Tendermint header or a value of
another dynamic type, named by a tag. -/
inductive ExportedHeader where
  | tendermint (h : Header)
  | other (tag : Nat)
deriving DecidableEq, Repr

/-- The interface `clientexported.ConsensusState` as the codec returns it: a
pointer to a Tendermint consensus state or a value of another dynamic type. -/
inductive ExportedConsensusState where
  | tendermint (cs : ConsensusState)
  | other (tag : Nat)
deriving DecidableEq, Repr

/-! ## Errors -/

/-- The registered errors that `update.go` wraps. -/
inductive RootError where
  | ErrInvalidHeader
  | ErrConsensusStateNotFound
  | ErrInvalidConsensus
  | ErrInvalidHeaderHeight
  | ErrInvalidValidatorSet
deriving DecidableEq, Repr

/-- The errors of the light-client verification: one for each check of the
quorum/time verification, and `other` for any further error of the library. -/
inductive VerifyError where
  | quorum
  | validatorSetHash
  | timeNotAfterAnchor
  | clockDrift
  | anchorExpired
  | other (code : Nat)
deriving DecidableEq, Repr

/-- An error value: a registered error wrapped with a message
(`sdkerrors.Wrapf`; the message text is not kept), or an error of the
light-client verification wrapped with "failed to verify header"
(`sdkerrors.Wrap`). -/
inductive Error where
  | Wrapf (root : RootError)
  | Wrap (cause : VerifyError)
deriving DecidableEq, Repr

/-! ## Collaborators -/

/-- The functions of other packages that `update.go` calls. -/
structure Imports where
  /-- The function `host.KeyConsensusState`. -/
  KeyConsensusState : Nat → Bytes
  /-- The method `(*tmtypes.ValidatorSet).Hash`. -/
  Hash : tmtypes.ValidatorSet → Bytes
  /-- The function `lite.Verify`; `none` is success. -/
  Verify : String → tmtypes.SignedHeader → tmtypes.ValidatorSet →
    tmtypes.SignedHeader → tmtypes.ValidatorSet →
    Duration → Time → Duration → TmFraction → Option VerifyError

/-- The codec argument, seen through the one use made of it: decoding the
stored bytes of a consensus state. `none` stands for bytes that do not decode,
on which `clienttypes.MustUnmarshalConsensusState` panics. -/
structure BinaryMarshaler where
  MustUnmarshalConsensusState : Bytes → Option ExportedConsensusState

/-- The part of `sdk.Context` that is read. -/
structure Context where
  BlockTime : Time
deriving DecidableEq, Repr

/-- The contents of a key-value store; `none` is an absent key. -/
abbrev KVStore := Bytes → Option Bytes

/-- The calls recorded in the trace: a read of the client store, a decoding by
the codec, the entry into `checkValidity`, and the light-client
verification. -/
inductive Call where
  | Get (key : Bytes)
  | MustUnmarshalConsensusState (bz : Bytes)
  | checkValidity
  | Verify
deriving DecidableEq, Repr

/-- The state a call runs in: the client store and the trace of calls made so
far, oldest first. -/
structure World where
  store : KVStore
  trace : List Call

/-- Appends one call to the trace. -/
def World.record (w : World) (c : Call) : World :=
  { w with trace := w.trace ++ [c] }

/-- The method `clientStore.Get`. -/
def World.Get (w : World) (key : Bytes) : Option Bytes × World :=
  (w.store key, w.record (Call.Get key))

/-- The three values `CheckHeaderAndUpdateState` returns; `none` is nil. -/
structure Returned where
  clientState : Option ClientState
  consensusState : Option ConsensusState
  err : Option Error
deriving DecidableEq, Repr

/-- How a call of `CheckHeaderAndUpdateState` ends. -/
inductive Outcome where
  | panicked
  | returned (r : Returned)
deriving DecidableEq, Repr

/-! ## The functions of update.go -/

/-- The function `checkTrustedHeader`: the consensus state matches the trusted
fields of the header. -/
def checkTrustedHeader (d : Imports) (header : Header) (consState : ConsensusState) :
    Option Error :=
  if header.TrustedHeight ≠ consState.Height then
    some (Error.Wrapf RootError.ErrInvalidHeaderHeight)
  else
    let tvalHash := d.Hash header.TrustedValidators
    if ¬ (consState.NextValidatorsHash = tvalHash) then
      some (Error.Wrapf RootError.ErrInvalidValidatorSet)
    else
      none

/-- The function `checkValidity`. -/
def checkValidity (d : Imports) (clientState : ClientState) (consState : ConsensusState)
    (header : Header) (currentTimestamp : Time) (w : World) : Option Error × World :=
  let w := w.record Call.checkValidity
  match checkTrustedHeader d header consState with
  | some err => (some err, w)
  | none =>
    if header.GetHeight ≤ consState.Height then
      (some (Error.Wrapf RootError.ErrInvalidHeader), w)
    else
      let trustedHeader : tmtypes.Header :=
        { ChainID := ""
          Height := int64 consState.Height
          Time := consState.Timestamp
          ValidatorsHash := []
          NextValidatorsHash := consState.NextValidatorsHash
          AppHash := [] }
      let signedHeader : tmtypes.SignedHeader := { Header := trustedHeader, Commit := none }
      let w := w.record Call.Verify
      match d.Verify clientState.GetChainID signedHeader header.TrustedValidators
          header.SignedHeader header.ValidatorSet clientState.TrustingPeriod currentTimestamp
          clientState.MaxClockDrift clientState.TrustLevel.ToTendermint with
      | some err => (some (Error.Wrap err), w)
      | none => (none, w)

/-- The function `update`: the client state and the consensus state from a new
header. -/
def update (clientState : ClientState) (header : Header) : ClientState × ConsensusState :=
  let clientState :=
    if uint64 header.Height > clientState.LatestHeight then
      { clientState with LatestHeight := uint64 header.Height }
    else clientState
  let consensusState : ConsensusState :=
    { Height := uint64 header.Height
      Timestamp := header.Time
      Root := NewMerkleRoot header.AppHash
      NextValidatorsHash := header.NextValidatorsHash }
  (clientState, consensusState)

/-- The method `ClientState.CheckHeaderAndUpdateState`. -/
def CheckHeaderAndUpdateState (d : Imports) (cs : ClientState) (ctx : Context)
    (cdc : BinaryMarshaler) (header : ExportedHeader) (w : World) : Outcome × World :=
  match header with
  | ExportedHeader.other _ =>
    (Outcome.returned
      { clientState := none, consensusState := none
        err := some (Error.Wrapf RootError.ErrInvalidHeader) }, w)
  | ExportedHeader.tendermint tmHeader =>
    let (consBytes, w) := w.Get (d.KeyConsensusState tmHeader.TrustedHeight)
    match consBytes with
    | none =>
      (Outcome.returned
        { clientState := none, consensusState := none
          err := some (Error.Wrapf RootError.ErrConsensusStateNotFound) }, w)
    | some consBytes =>
      let w := w.record (Call.MustUnmarshalConsensusState consBytes)
      match cdc.MustUnmarshalConsensusState consBytes with
      | none => (Outcome.panicked, w)
      | some (ExportedConsensusState.other _) =>
        (Outcome.returned
          { clientState := none, consensusState := none
            err := some (Error.Wrapf RootError.ErrInvalidConsensus) }, w)
      | some (ExportedConsensusState.tendermint tmConsState) =>
        match checkValidity d cs tmConsState tmHeader ctx.BlockTime w with
        | (some err, w) =>
          (Outcome.returned { clientState := none, consensusState := none, err := some err }, w)
        | (none, w) =>
          let (newClientState, consensusState) := update cs tmHeader
          (Outcome.returned
            { clientState := some newClientState, consensusState := some consensusState
              err := none }, w)

/-! ## The light-client verification, from the specification -/

/-- Modelled from the spec: lite.Verify, the quorum/time verification of the
Tendermint light-client library, which is not among the sources. It makes the
checks of section 4.1, step 3, in the order they are listed: a trust-level
quorum of the trusted validators signed the new commit, or the heights are
adjacent and the new validator set reaches its own supermajority; the hash of
the claimed validator set is the next-validators hash of the header; the header
time is after the anchor time; the header time is at most now plus the clock
drift; and now minus the anchor time is below the trusting period. The two
signature tests are the parameters `trustedQuorum` and `supermajority`. -/
def liteVerify (Hash : tmtypes.ValidatorSet → Bytes)
    (trustedQuorum : String → TmFraction → tmtypes.ValidatorSet → tmtypes.SignedHeader → Bool)
    (supermajority : String → tmtypes.ValidatorSet → tmtypes.SignedHeader → Bool)
    (chainID : String) (trustedHeader : tmtypes.SignedHeader)
    (trustedVals : tmtypes.ValidatorSet) (untrustedHeader : tmtypes.SignedHeader)
    (untrustedVals : tmtypes.ValidatorSet) (trustingPeriod : Duration) (now : Time)
    (maxClockDrift : Duration) (trustLevel : TmFraction) : Option VerifyError :=
  if ¬ (trustedQuorum chainID trustLevel trustedVals untrustedHeader = true
      ∨ (untrustedHeader.Header.Height = trustedHeader.Header.Height + 1
        ∧ supermajority chainID untrustedVals untrustedHeader = true)) then
    some VerifyError.quorum
  else if ¬ (Hash untrustedVals = untrustedHeader.Header.NextValidatorsHash) then
    some VerifyError.validatorSetHash
  else if ¬ (untrustedHeader.Header.Time > trustedHeader.Header.Time) then
    some VerifyError.timeNotAfterAnchor
  else if ¬ (untrustedHeader.Header.Time ≤ now + maxClockDrift) then
    some VerifyError.clockDrift
  else if ¬ (now - trustedHeader.Header.Time < trustingPeriod) then
    some VerifyError.anchorExpired
  else
    none

/-- The collaborators `d` with the light-client verification of the
specification in the place of `d.Verify`. -/
def withLiteVerify (d : Imports)
    (trustedQuorum : String → TmFraction → tmtypes.ValidatorSet → tmtypes.SignedHeader → Bool)
    (supermajority : String → tmtypes.ValidatorSet → tmtypes.SignedHeader → Bool) : Imports :=
  { d with Verify := liteVerify d.Hash trustedQuorum supermajority }

/-! ## Sample values -/

/-- A validator set of one validator. -/
def sampleVals : tmtypes.ValidatorSet :=
  { Validators := [{ Address := [1], PubKey := [2], VotingPower := 10 }] }

/-- Sample collaborators: the key of a height is the height, the hash of a
validator set lists its voting powers, and the verification is that of the
specification with both signature tests passing. -/
def sampleImports : Imports :=
  withLiteVerify
    { KeyConsensusState := fun height => [height]
      Hash := fun vals => vals.Validators.map (fun v => v.VotingPower.toNat)
      Verify := fun _ _ _ _ _ _ _ _ _ => none }
    (fun _ _ _ _ => true) (fun _ _ _ => true)

/-- A sample client: trust level 1/3, trusting period 100, latest height 20. -/
def sampleClient : ClientState :=
  { ChainID := "chain"
    TrustLevel := { Numerator := 1, Denominator := 3 }
    TrustingPeriod := 100
    UnbondingPeriod := 200
    MaxClockDrift := 5
    LatestHeight := 20
    ProofSpecs := [] }

/-- A sample anchor: the consensus state of height 10, of time 1000. -/
def sampleAnchor : ConsensusState :=
  { Timestamp := 1000
    Root := NewMerkleRoot [7]
    Height := 10
    NextValidatorsHash := [10] }

/-- A sample header of the given height and time, anchored at `trusted`. -/
def sampleHeader (height : Int) (time : Time) (trusted : Nat) : Header :=
  { SignedHeader :=
      { Header :=
          { ChainID := "chain"
            Height := height
            Time := time
            ValidatorsHash := [10]
            NextValidatorsHash := [10]
            AppHash := [8] }
        Commit := some { Height := height, BlockHash := [9], Signatures := [[3]] } }
    ValidatorSet := sampleVals
    TrustedHeight := trusted
    TrustedValidators := sampleVals }

/-- A sample codec: the bytes `[0, h, t]` decode to the Tendermint consensus
state of height `h` and time `t` with the hash of `sampleVals`, bytes that
start with 1 decode to a consensus state of another client type, and nothing
else decodes. -/
def sampleCodec : BinaryMarshaler :=
  { MustUnmarshalConsensusState := fun bz =>
      match bz with
      | [0, h, t] =>
        some (ExportedConsensusState.tendermint
          { Timestamp := (t : Int), Root := NewMerkleRoot [7], Height := h
            NextValidatorsHash := [10] })
      | 1 :: _ => some (ExportedConsensusState.other 6)
      | _ => none }

/-- A sample world: the store holds the sample anchor under the key of height
10 and a consensus state of another client type under the key of height 11;
the trace is empty. -/
def sampleWorld : World :=
  { store := fun key =>
      if key = [10] then some [0, 10, 1000] else if key = [11] then some [1] else none
    trace := [] }

/-- The trusted header that `checkValidity` builds from the consensus state. -/
def trustedSignedHeader (consState : ConsensusState) : tmtypes.SignedHeader :=
  { Header :=
      { ChainID := ""
        Height := int64 consState.Height
        Time := consState.Timestamp
        ValidatorsHash := []
        NextValidatorsHash := consState.NextValidatorsHash
        AppHash := [] }
    Commit := none }

/-! ## The connection queries of utils.go -/

/-- The interface `clientexported.ClientState`: a Tendermint client state or a
value of another dynamic type, named by a tag. -/
inductive ExportedClientState where
  | tendermint (cs : ClientState)
  | other (tag : Nat)
deriving DecidableEq, Repr

/-- The type `codectypes.Any`: a packed interface value. -/
structure AnyValue where
  TypeUrl : String
  Value : Bytes
deriving DecidableEq, Repr

/-- An error value of a query. -/
structure QueryError where
  code : Nat
deriving DecidableEq, Repr

/-- The type `clienttypes.IdentifiedClientState`: a packed client state with
the identifier of the client. -/
structure IdentifiedClientState where
  Id : String
  ClientState : AnyValue
deriving DecidableEq, Repr

/-- The type `types.QueryConnectionClientStateResponse`. The pointer to the
identified client state is taken non-nil. -/
structure QueryConnectionClientStateResponse where
  IdentifiedClientState : IdentifiedClientState
  Proof : Bytes
  ProofPath : String
  ProofHeight : Nat
deriving DecidableEq, Repr

/-- The type `types.QueryConnectionConsensusStateResponse`. -/
structure QueryConnectionConsensusStateResponse where
  ConsensusState : AnyValue
  ClientId : String
  Proof : Bytes
  ProofPath : String
  ProofHeight : Nat
deriving DecidableEq, Repr

/-- The argument `client.Context`, seen through the reads made with it: the two
unauthenticated reads of the gRPC query client built from it
(`queryClient.ConnectionClientState`, `queryClient.ConnectionConsensusState`)
and the two authenticated reads of the ABCI store
(`clientutils.QueryClientStateABCI`, `clientutils.QueryConsensusStateABCI`),
which return the state, the proof and the proof height. -/
structure ClientContext where
  ConnectionClientState : String → Except QueryError QueryConnectionClientStateResponse
  ConnectionConsensusState :
    String → Nat → Except QueryError QueryConnectionConsensusStateResponse
  QueryClientStateABCI : String → Except QueryError (ExportedClientState × Bytes × Nat)
  QueryConsensusStateABCI :
    String → Nat → Except QueryError (ExportedConsensusState × Bytes × Nat)

/-- The functions of other packages that the two queries call. -/
structure QueryImports where
  /-- The function `clienttypes.UnpackConsensusState`. -/
  UnpackConsensusState : AnyValue → Except QueryError ExportedConsensusState
  /-- The function `clienttypes.PackConsensusState`. -/
  PackConsensusState : ExportedConsensusState → Except QueryError AnyValue
  /-- The method `GetHeight` of the interface `clientexported.ConsensusState`. -/
  GetHeight : ExportedConsensusState → Nat
  /-- The function `clienttypes.NewIdentifiedClientState`. -/
  NewIdentifiedClientState : String → ExportedClientState → IdentifiedClientState
  /-- The function `types.NewQueryConnectionClientStateResponse`. -/
  NewQueryConnectionClientStateResponse :
    IdentifiedClientState → Bytes → Int → QueryConnectionClientStateResponse
  /-- The function `types.NewQueryConnectionConsensusStateResponse`. -/
  NewQueryConnectionConsensusStateResponse :
    String → AnyValue → Nat → Bytes → Int → QueryConnectionConsensusStateResponse

/-- The reads recorded in the trace of a query, with their arguments. -/
inductive QueryCall where
  | ConnectionClientState (connectionID : String)
  | ConnectionConsensusState (connectionID : String) (height : Nat)
  | QueryClientStateABCI (clientID : String)
  | QueryConsensusStateABCI (clientID : String) (height : Nat)
deriving DecidableEq, Repr

/-- Whether a recorded read is an authenticated read of the ABCI store. -/
def QueryCall.isABCI : QueryCall → Bool
  | QueryCall.QueryClientStateABCI _ => true
  | QueryCall.QueryConsensusStateABCI _ _ => true
  | _ => false

/-- The function `QueryConnectionClientState`: the result, and the reads made,
oldest first. -/
def QueryConnectionClientState (d : QueryImports) (clientCtx : ClientContext)
    (connectionID : String) (prove : Bool) :
    Except QueryError QueryConnectionClientStateResponse × List QueryCall :=
  match clientCtx.ConnectionClientState connectionID with
  | Except.error err => (Except.error err, [QueryCall.ConnectionClientState connectionID])
  | Except.ok res =>
    if prove then
      match clientCtx.QueryClientStateABCI res.IdentifiedClientState.Id with
      | Except.error err =>
        (Except.error err,
          [QueryCall.ConnectionClientState connectionID,
            QueryCall.QueryClientStateABCI res.IdentifiedClientState.Id])
      | Except.ok (clientState, proof, proofHeight) =>
        let identifiedClientState :=
          d.NewIdentifiedClientState res.IdentifiedClientState.Id clientState
        (Except.ok
          (d.NewQueryConnectionClientStateResponse identifiedClientState proof
            (int64 proofHeight)),
          [QueryCall.ConnectionClientState connectionID,
            QueryCall.QueryClientStateABCI res.IdentifiedClientState.Id])
    else
      (Except.ok res, [QueryCall.ConnectionClientState connectionID])

/-- The function `QueryConnectionConsensusState`: the result, and the reads
made, oldest first. -/
def QueryConnectionConsensusState (d : QueryImports) (clientCtx : ClientContext)
    (connectionID : String) (height : Nat) (prove : Bool) :
    Except QueryError QueryConnectionConsensusStateResponse × List QueryCall :=
  match clientCtx.ConnectionConsensusState connectionID height with
  | Except.error err =>
    (Except.error err, [QueryCall.ConnectionConsensusState connectionID height])
  | Except.ok res =>
    match d.UnpackConsensusState res.ConsensusState with
    | Except.error err =>
      (Except.error err, [QueryCall.ConnectionConsensusState connectionID height])
    | Except.ok consensusState =>
      if prove then
        match clientCtx.QueryConsensusStateABCI res.ClientId (d.GetHeight consensusState) with
        | Except.error err =>
          (Except.error err,
            [QueryCall.ConnectionConsensusState connectionID height,
              QueryCall.QueryConsensusStateABCI res.ClientId (d.GetHeight consensusState)])
        | Except.ok (consensusState2, proof, proofHeight) =>
          match d.PackConsensusState consensusState2 with
          | Except.error err =>
            (Except.error err,
              [QueryCall.ConnectionConsensusState connectionID height,
                QueryCall.QueryConsensusStateABCI res.ClientId (d.GetHeight consensusState)])
          | Except.ok anyConsensusState =>
            (Except.ok
              (d.NewQueryConnectionConsensusStateResponse res.ClientId anyConsensusState
                (d.GetHeight consensusState2) proof (int64 proofHeight)),
              [QueryCall.ConnectionConsensusState connectionID height,
                QueryCall.QueryConsensusStateABCI res.ClientId (d.GetHeight consensusState)])
      else
        (Except.ok res, [QueryCall.ConnectionConsensusState connectionID height])

/-- Sample functions of the other packages: a consensus state is packed as its
height and time, and the responses are built from their arguments. -/
def sampleQueryImports : QueryImports :=
  { UnpackConsensusState := fun a =>
      match a.Value with
      | [h, t] =>
        Except.ok (ExportedConsensusState.tendermint
          { Timestamp := (t : Int), Root := NewMerkleRoot [7], Height := h
            NextValidatorsHash := [10] })
      | _ => Except.error { code := 2 }
    PackConsensusState := fun cs =>
      match cs with
      | ExportedConsensusState.tendermint c =>
        Except.ok { TypeUrl := "tendermint", Value := [c.Height, c.Timestamp.toNat] }
      | ExportedConsensusState.other _ => Except.error { code := 3 }
    GetHeight := fun cs =>
      match cs with
      | ExportedConsensusState.tendermint c => c.Height
      | ExportedConsensusState.other _ => 0
    NewIdentifiedClientState := fun id cs =>
      { Id := id
        ClientState :=
          match cs with
          | ExportedClientState.tendermint c => { TypeUrl := "tendermint", Value := [c.LatestHeight] }
          | ExportedClientState.other tag => { TypeUrl := "other", Value := [tag] } }
    NewQueryConnectionClientStateResponse := fun ics proof height =>
      { IdentifiedClientState := ics, Proof := proof, ProofPath := "clientState"
        ProofHeight := uint64 height }
    NewQueryConnectionConsensusStateResponse := fun clientID cs _ proof height =>
      { ConsensusState := cs, ClientId := clientID, Proof := proof
        ProofPath := "consensusState", ProofHeight := uint64 height } }

/-- A sample node. Its unauthenticated reads answer from height 5: the client
`client-a` with latest height 20, and its consensus state of height 10 and time
1000, with no proof. Its authenticated reads answer from height 7: the client
with latest height 21 and the proof `[1, 2]`, and the consensus state of height
10 and time 1001 with the proof `[3, 4]`. -/
def sampleClientContext : ClientContext :=
  { ConnectionClientState := fun _ =>
      Except.ok
        { IdentifiedClientState :=
            { Id := "client-a", ClientState := { TypeUrl := "tendermint", Value := [20] } }
          Proof := [], ProofPath := "", ProofHeight := 5 }
    ConnectionConsensusState := fun _ _ =>
      Except.ok
        { ConsensusState := { TypeUrl := "tendermint", Value := [10, 1000] }
          ClientId := "client-a", Proof := [], ProofPath := "", ProofHeight := 5 }
    QueryClientStateABCI := fun _ =>
      Except.ok
        (ExportedClientState.tendermint { sampleClient with LatestHeight := 21 }, [1, 2], 7)
    QueryConsensusStateABCI := fun _ _ =>
      Except.ok
        (ExportedConsensusState.tendermint { sampleAnchor with Timestamp := 1001 }, [3, 4], 7) }

/-! ## Lemmas on the validity check -/

/-- The verdict of `checkValidity` does not depend on the world it runs in. -/
theorem checkValidity_verdict_world (d : Imports) (cs : ClientState) (consState : ConsensusState)
    (header : Header) (now : Time) (w w2 : World) :
    (checkValidity d cs consState header now w).1
      = (checkValidity d cs consState header now w2).1 := by
  unfold checkValidity
  simp only []
  split
  · rfl
  · split
    · rfl
    · split <;> rfl

/-- The validity check leaves the store as it is. -/
theorem checkValidity_store (d : Imports) (cs : ClientState) (consState : ConsensusState)
    (header : Header) (now : Time) (w : World) :
    (checkValidity d cs consState header now w).2.store = w.store := by
  unfold checkValidity
  simp only []
  split
  · rfl
  · split
    · rfl
    · split <;> rfl

/-- The trace after the validity check extends the trace before it. -/
theorem checkValidity_trace (d : Imports) (cs : ClientState) (consState : ConsensusState)
    (header : Header) (now : Time) (w : World) :
    w.trace <+: (checkValidity d cs consState header now w).2.trace := by
  unfold checkValidity
  simp only []
  split
  · exact ⟨_, rfl⟩
  · split
    · exact ⟨_, rfl⟩
    · split <;> exact ⟨[Call.checkValidity, Call.Verify], by simp [World.record]⟩

/-- When the trusted-anchor check fails, the validity check returns its error
and does not reach the light-client verification. -/
theorem checkValidity_of_trusted_error (d : Imports) (cs : ClientState)
    (consState : ConsensusState) (header : Header) (now : Time) (w : World) (e : Error)
    (h : checkTrustedHeader d header consState = some e) :
    checkValidity d cs consState header now w = (some e, w.record Call.checkValidity) := by
  unfold checkValidity
  simp only [h]

/-- When the trusted-anchor check passes and the header is not above the
anchor, the validity check returns the height-ordering error and does not reach
the light-client verification. -/
theorem checkValidity_of_not_above (d : Imports) (cs : ClientState)
    (consState : ConsensusState) (header : Header) (now : Time) (w : World)
    (h : checkTrustedHeader d header consState = none)
    (hle : header.GetHeight ≤ consState.Height) :
    checkValidity d cs consState header now w
      = (some (Error.Wrapf RootError.ErrInvalidHeader), w.record Call.checkValidity) := by
  unfold checkValidity
  simp only [h, hle, if_true]

/-- When the trusted-anchor check passes and the header is above the anchor,
the verdict of the validity check is that of the light-client verification. -/
theorem checkValidity_of_above (d : Imports) (cs : ClientState)
    (consState : ConsensusState) (header : Header) (now : Time) (w : World)
    (h : checkTrustedHeader d header consState = none)
    (hlt : consState.Height < header.GetHeight) :
    (checkValidity d cs consState header now w).1
      = (d.Verify cs.GetChainID (trustedSignedHeader consState) header.TrustedValidators
          header.SignedHeader header.ValidatorSet cs.TrustingPeriod now cs.MaxClockDrift
          cs.TrustLevel.ToTendermint).map Error.Wrap := by
  unfold checkValidity
  simp only [h, Nat.not_le.mpr hlt, if_false, trustedSignedHeader]
  split <;> simp [*]

/-- The validity check passes exactly when the trusted-anchor check passes, the
header is above the anchor and the light-client verification accepts. -/
theorem checkValidity_eq_none_iff (d : Imports) (cs : ClientState)
    (consState : ConsensusState) (header : Header) (now : Time) (w : World) :
    (checkValidity d cs consState header now w).1 = none ↔
      checkTrustedHeader d header consState = none
      ∧ consState.Height < header.GetHeight
      ∧ d.Verify cs.GetChainID (trustedSignedHeader consState) header.TrustedValidators
          header.SignedHeader header.ValidatorSet cs.TrustingPeriod now cs.MaxClockDrift
          cs.TrustLevel.ToTendermint = none := by
  cases h : checkTrustedHeader d header consState with
  | some e => simp [checkValidity_of_trusted_error d cs consState header now w e h]
  | none =>
    by_cases hle : header.GetHeight ≤ consState.Height
    · simp [checkValidity_of_not_above d cs consState header now w h hle, Nat.not_lt.mpr hle]
    · have hlt : consState.Height < header.GetHeight := Nat.not_le.mp hle
      rw [checkValidity_of_above d cs consState header now w h hlt]
      simp [hlt]

/-- What `CheckHeaderAndUpdateState` does once the anchor is found in the store
and decodes to a Tendermint consensus state. -/
theorem CheckHeaderAndUpdateState_of_anchor (d : Imports) (cs : ClientState) (ctx : Context)
    (cdc : BinaryMarshaler) (header : Header) (consState : ConsensusState) (bz : Bytes)
    (w : World)
    (hget : w.store (d.KeyConsensusState header.TrustedHeight) = some bz)
    (hdec : cdc.MustUnmarshalConsensusState bz = some (ExportedConsensusState.tendermint consState)) :
    CheckHeaderAndUpdateState d cs ctx cdc (ExportedHeader.tendermint header) w
      = match checkValidity d cs consState header ctx.BlockTime
          (((w.record (Call.Get (d.KeyConsensusState header.TrustedHeight))).record
            (Call.MustUnmarshalConsensusState bz))) with
        | (some err, w2) =>
          (Outcome.returned { clientState := none, consensusState := none, err := some err }, w2)
        | (none, w2) =>
          (Outcome.returned
            { clientState := some (update cs header).1
              consensusState := some (update cs header).2
              err := none }, w2) := by
  simp only [CheckHeaderAndUpdateState, World.Get, hget, World.record, hdec]

/-- The latest height after `update` is the maximum of the old latest height
and the height of the header. -/
theorem update_LatestHeight (cs : ClientState) (header : Header) :
    (update cs header).1.LatestHeight = max cs.LatestHeight header.GetHeight := by
  unfold update Header.GetHeight
  by_cases h : uint64 header.Height > cs.LatestHeight
  · simp only [h, if_true]
    exact (max_eq_right (Nat.le_of_lt h)).symm
  · simp only [h, if_false]
    exact (max_eq_left (Nat.not_lt.mp h)).symm

/-- The ways a call of `CheckHeaderAndUpdateState` can end: a panic of the
codec, an error with no state, or no error with the two states of `update`. -/
theorem CheckHeaderAndUpdateState_outcome (d : Imports) (cs : ClientState) (ctx : Context)
    (cdc : BinaryMarshaler) (eh : ExportedHeader) (w : World) :
    (CheckHeaderAndUpdateState d cs ctx cdc eh w).1 = Outcome.panicked
      ∨ (∃ e, (CheckHeaderAndUpdateState d cs ctx cdc eh w).1
          = Outcome.returned { clientState := none, consensusState := none, err := some e })
      ∨ (∃ h, eh = ExportedHeader.tendermint h
          ∧ (CheckHeaderAndUpdateState d cs ctx cdc eh w).1
            = Outcome.returned
                { clientState := some (update cs h).1
                  consensusState := some (update cs h).2
                  err := none }) := by
  cases eh with
  | other tag => exact Or.inr (Or.inl ⟨_, rfl⟩)
  | tendermint h =>
    cases hget : w.store (d.KeyConsensusState h.TrustedHeight) with
    | none =>
      refine Or.inr (Or.inl ⟨Error.Wrapf RootError.ErrConsensusStateNotFound, ?_⟩)
      simp only [CheckHeaderAndUpdateState, World.Get, hget]
    | some bz =>
      cases hdec : cdc.MustUnmarshalConsensusState bz with
      | none =>
        refine Or.inl ?_
        simp only [CheckHeaderAndUpdateState, World.Get, hget, hdec]
      | some ecs =>
        cases ecs with
        | other tag =>
          refine Or.inr (Or.inl ⟨Error.Wrapf RootError.ErrInvalidConsensus, ?_⟩)
          simp only [CheckHeaderAndUpdateState, World.Get, hget, hdec]
        | tendermint consState =>
          rw [CheckHeaderAndUpdateState_of_anchor d cs ctx cdc h consState bz w hget hdec]
          split
          · next err w2 _ => exact Or.inr (Or.inl ⟨err, rfl⟩)
          · exact Or.inr (Or.inr ⟨h, rfl, rfl⟩)

/-- The store after `CheckHeaderAndUpdateState` is the store before it. -/
theorem CheckHeaderAndUpdateState_store (d : Imports) (cs : ClientState) (ctx : Context)
    (cdc : BinaryMarshaler) (eh : ExportedHeader) (w : World) :
    (CheckHeaderAndUpdateState d cs ctx cdc eh w).2.store = w.store := by
  cases eh with
  | other tag => rfl
  | tendermint h =>
    cases hget : w.store (d.KeyConsensusState h.TrustedHeight) with
    | none => simp only [CheckHeaderAndUpdateState, World.Get, hget, World.record]
    | some bz =>
      cases hdec : cdc.MustUnmarshalConsensusState bz with
      | none => simp only [CheckHeaderAndUpdateState, World.Get, hget, hdec, World.record]
      | some ecs =>
        cases ecs with
        | other tag =>
          simp only [CheckHeaderAndUpdateState, World.Get, hget, hdec, World.record]
        | tendermint consState =>
          rw [CheckHeaderAndUpdateState_of_anchor d cs ctx cdc h consState bz w hget hdec]
          have hs := checkValidity_store d cs consState h ctx.BlockTime
            ((w.record (Call.Get (d.KeyConsensusState h.TrustedHeight))).record
              (Call.MustUnmarshalConsensusState bz))
          split
          · next err w2 heq => rw [heq] at hs; exact hs
          · next w2 heq => rw [heq] at hs; exact hs

/-- The trace after `CheckHeaderAndUpdateState` extends the trace before it. -/
theorem CheckHeaderAndUpdateState_trace (d : Imports) (cs : ClientState) (ctx : Context)
    (cdc : BinaryMarshaler) (eh : ExportedHeader) (w : World) :
    w.trace <+: (CheckHeaderAndUpdateState d cs ctx cdc eh w).2.trace := by
  cases eh with
  | other tag => exact List.prefix_refl _
  | tendermint h =>
    cases hget : w.store (d.KeyConsensusState h.TrustedHeight) with
    | none =>
      simp only [CheckHeaderAndUpdateState, World.Get, hget, World.record]
      exact List.prefix_append _ _
    | some bz =>
      have hpre : w.trace <+: ((w.record (Call.Get (d.KeyConsensusState h.TrustedHeight))).record
          (Call.MustUnmarshalConsensusState bz)).trace := by
        simp only [World.record, List.append_assoc]
        exact List.prefix_append _ _
      cases hdec : cdc.MustUnmarshalConsensusState bz with
      | none =>
        simp only [CheckHeaderAndUpdateState, World.Get, hget, hdec]
        exact hpre
      | some ecs =>
        cases ecs with
        | other tag =>
          simp only [CheckHeaderAndUpdateState, World.Get, hget, hdec]
          exact hpre
        | tendermint consState =>
          rw [CheckHeaderAndUpdateState_of_anchor d cs ctx cdc h consState bz w hget hdec]
          have hs := checkValidity_trace d cs consState h ctx.BlockTime
            ((w.record (Call.Get (d.KeyConsensusState h.TrustedHeight))).record
              (Call.MustUnmarshalConsensusState bz))
          split
          · next err w2 heq => rw [heq] at hs; exact hpre.trans hs
          · next w2 heq => rw [heq] at hs; exact hpre.trans hs

/-- The trusted-anchor check passes exactly when the trusted height is the
height of the consensus state and the trusted validators hash to its stored
next-validators hash. -/
theorem checkTrustedHeader_eq_none_iff (d : Imports) (header : Header)
    (consState : ConsensusState) :
    checkTrustedHeader d header consState = none ↔
      header.TrustedHeight = consState.Height
      ∧ consState.NextValidatorsHash = d.Hash header.TrustedValidators := by
  unfold checkTrustedHeader
  by_cases hh : header.TrustedHeight = consState.Height
  · by_cases hv : consState.NextValidatorsHash = d.Hash header.TrustedValidators
    · simp [hh, hv]
    · simp [hh, hv]
  · simp [hh]

/-- The trace after the validity check when the light-client verification is
reached. -/
theorem checkValidity_trace_of_above (d : Imports) (cs : ClientState)
    (consState : ConsensusState) (header : Header) (now : Time) (w : World)
    (h : checkTrustedHeader d header consState = none)
    (hlt : consState.Height < header.GetHeight) :
    (checkValidity d cs consState header now w).2.trace
      = w.trace ++ [Call.checkValidity, Call.Verify] := by
  unfold checkValidity
  simp only [h, Nat.not_le.mpr hlt, if_false]
  split <;> simp [World.record]

/-- The update changes the latest height of the client state and nothing
else. -/
theorem update_client_state (cs : ClientState) (header : Header) :
    (update cs header).1 = { cs with LatestHeight := max cs.LatestHeight header.GetHeight } := by
  have hmax := update_LatestHeight cs header
  rw [← hmax]
  unfold update
  by_cases h : uint64 header.Height > cs.LatestHeight
  · simp only [h, if_true]
  · simp only [h, if_false]

/-! ## The claims -/

/-- C1: when the anchor of the header is stored and decodes to a Tendermint
consensus state, and `checkValidity` returns no error, then
`CheckHeaderAndUpdateState` succeeds, returning the client state and the
consensus state of `update`, and the latest height of the returned client
state is the maximum of the old latest height and the header height: the header
height when that is greater, the old latest height when the header fills a past
height. -/
theorem CheckHeaderAndUpdateState_latest_height (d : Imports) (cs : ClientState)
    (ctx : Context) (cdc : BinaryMarshaler) (header : Header) (consState : ConsensusState)
    (bz : Bytes) (w : World)
    (hget : w.store (d.KeyConsensusState header.TrustedHeight) = some bz)
    (hdec : cdc.MustUnmarshalConsensusState bz
      = some (ExportedConsensusState.tendermint consState))
    (hvalid : (checkValidity d cs consState header ctx.BlockTime w).1 = none) :
    (CheckHeaderAndUpdateState d cs ctx cdc (ExportedHeader.tendermint header) w).1
        = Outcome.returned
            { clientState := some (update cs header).1
              consensusState := some (update cs header).2
              err := none }
      ∧ (update cs header).1.LatestHeight = max cs.LatestHeight header.GetHeight
      ∧ (cs.LatestHeight < header.GetHeight →
          (update cs header).1.LatestHeight = header.GetHeight)
      ∧ (header.GetHeight ≤ cs.LatestHeight →
          (update cs header).1.LatestHeight = cs.LatestHeight) := by
  have hmax := update_LatestHeight cs header
  refine ⟨?_, hmax, ?_, ?_⟩
  · rw [CheckHeaderAndUpdateState_of_anchor d cs ctx cdc header consState bz w hget hdec]
    have hv := checkValidity_verdict_world d cs consState header ctx.BlockTime
      ((w.record (Call.Get (d.KeyConsensusState header.TrustedHeight))).record
        (Call.MustUnmarshalConsensusState bz)) w
    rw [hvalid] at hv
    split
    · next err w2 heq => rw [heq] at hv; cases hv
    · rfl
  · intro hlt
    rw [hmax]
    exact max_eq_right (Nat.le_of_lt hlt)
  · intro hle
    rw [hmax]
    exact max_eq_left hle

/-- A header of height 11 anchored at the stored height 10, checked by a client
whose latest height is 20: the update succeeds and the latest height stays
20. -/
theorem CheckHeaderAndUpdateState_latest_height_witness :
    (CheckHeaderAndUpdateState sampleImports sampleClient { BlockTime := 1002 } sampleCodec
        (ExportedHeader.tendermint (sampleHeader 11 1001 10)) sampleWorld).1
        = Outcome.returned
            { clientState := some (update sampleClient (sampleHeader 11 1001 10)).1
              consensusState := some (update sampleClient (sampleHeader 11 1001 10)).2
              err := none }
      ∧ (update sampleClient (sampleHeader 11 1001 10)).1.LatestHeight
          = max sampleClient.LatestHeight (sampleHeader 11 1001 10).GetHeight
      ∧ (sampleClient.LatestHeight < (sampleHeader 11 1001 10).GetHeight →
          (update sampleClient (sampleHeader 11 1001 10)).1.LatestHeight
            = (sampleHeader 11 1001 10).GetHeight)
      ∧ ((sampleHeader 11 1001 10).GetHeight ≤ sampleClient.LatestHeight →
          (update sampleClient (sampleHeader 11 1001 10)).1.LatestHeight
            = sampleClient.LatestHeight) :=
  CheckHeaderAndUpdateState_latest_height sampleImports sampleClient { BlockTime := 1002 }
    sampleCodec (sampleHeader 11 1001 10) sampleAnchor [0, 10, 1000] sampleWorld
    (by decide) (by decide) (by decide)

/-- C2, as stated, fails: a header of height 3 with trusted height 10, checked
against an anchor of height 10 whose stored next-validators hash `[77]` is not
the hash `[10]` of the trusted validators of the header, is not above the
anchor, and `checkValidity` returns the error of the trusted-anchor check,
`ErrInvalidValidatorSet`, not the height-ordering error `ErrInvalidHeader`. -/
theorem checkValidity_height_order_counterexample :
    (sampleHeader 3 1001 10).GetHeight
        ≤ ({ sampleAnchor with NextValidatorsHash := [77] } : ConsensusState).Height
      ∧ (sampleHeader 3 1001 10).TrustedHeight
        = ({ sampleAnchor with NextValidatorsHash := [77] } : ConsensusState).Height
      ∧ (checkValidity sampleImports sampleClient
          { sampleAnchor with NextValidatorsHash := [77] } (sampleHeader 3 1001 10) 1002
          sampleWorld).1 = some (Error.Wrapf RootError.ErrInvalidValidatorSet)
      ∧ (checkValidity sampleImports sampleClient
          { sampleAnchor with NextValidatorsHash := [77] } (sampleHeader 3 1001 10) 1002
          sampleWorld).1 ≠ some (Error.Wrapf RootError.ErrInvalidHeader) := by
  decide

/-- C2, amended: for every client state, current time, anchor consensus state
and header with header height at most the anchor height, `checkValidity` fails
without reaching the light-client verification (so whatever the signatures and
validator set of the header are): with the height-ordering error
`ErrInvalidHeader` when the trusted-anchor check passes, and with the error of
the trusted-anchor check when it does not. -/
theorem checkValidity_height_order (d : Imports) (cs : ClientState)
    (consState : ConsensusState) (header : Header) (now : Time) (w : World)
    (hle : header.GetHeight ≤ consState.Height) :
    (checkValidity d cs consState header now w).1 ≠ none
      ∧ (checkTrustedHeader d header consState = none →
          (checkValidity d cs consState header now w).1
            = some (Error.Wrapf RootError.ErrInvalidHeader))
      ∧ (∀ e, checkTrustedHeader d header consState = some e →
          (checkValidity d cs consState header now w).1 = some e)
      ∧ (checkValidity d cs consState header now w).2 = w.record Call.checkValidity := by
  cases h : checkTrustedHeader d header consState with
  | some e =>
    rw [checkValidity_of_trusted_error d cs consState header now w e h]
    simp
  | none =>
    rw [checkValidity_of_not_above d cs consState header now w h hle]
    simp

/-- A header of height 10 anchored at the consensus state of height 10 fails
with the height-ordering error. -/
theorem checkValidity_height_order_witness :
    (sampleHeader 10 1001 10).GetHeight ≤ sampleAnchor.Height
      ∧ checkTrustedHeader sampleImports (sampleHeader 10 1001 10) sampleAnchor = none
      ∧ (checkValidity sampleImports sampleClient sampleAnchor (sampleHeader 10 1001 10) 1002
          sampleWorld).1 = some (Error.Wrapf RootError.ErrInvalidHeader) :=
  ⟨by decide, by decide,
    (checkValidity_height_order sampleImports sampleClient sampleAnchor
      (sampleHeader 10 1001 10) 1002 sampleWorld (by decide)).2.1 (by decide)⟩

/-- C3, as stated, fails: for a header with trusted height 5 and an anchor of
height 10 whose stored next-validators hash differs from the hash of the
trusted validators of the header, `checkTrustedHeader` and `checkValidity`
return `ErrInvalidHeaderHeight`, not `ErrInvalidValidatorSet`. -/
theorem checkTrustedHeader_hash_counterexample :
    sampleImports.Hash (sampleHeader 11 1001 5).TrustedValidators
        ≠ ({ sampleAnchor with NextValidatorsHash := [77] } : ConsensusState).NextValidatorsHash
      ∧ checkTrustedHeader sampleImports (sampleHeader 11 1001 5)
          { sampleAnchor with NextValidatorsHash := [77] }
          = some (Error.Wrapf RootError.ErrInvalidHeaderHeight)
      ∧ (checkValidity sampleImports sampleClient
          { sampleAnchor with NextValidatorsHash := [77] } (sampleHeader 11 1001 5) 1002
          sampleWorld).1 = some (Error.Wrapf RootError.ErrInvalidHeaderHeight)
      ∧ checkTrustedHeader sampleImports (sampleHeader 11 1001 5)
          { sampleAnchor with NextValidatorsHash := [77] }
          ≠ some (Error.Wrapf RootError.ErrInvalidValidatorSet) := by
  decide

/-- C3, amended: for every header and anchor consensus state with
`header.TrustedHeight = consState.Height` where the hash of the trusted
validators of the header differs from the stored `NextValidatorsHash`,
`checkTrustedHeader`, and therefore `checkValidity`, fails with
`ErrInvalidValidatorSet`; the light-client verification is not reached, so the
signatures of the header play no part. -/
theorem checkTrustedHeader_hash_mismatch (d : Imports) (cs : ClientState)
    (consState : ConsensusState) (header : Header) (now : Time) (w : World)
    (hheight : header.TrustedHeight = consState.Height)
    (hhash : d.Hash header.TrustedValidators ≠ consState.NextValidatorsHash) :
    checkTrustedHeader d header consState
        = some (Error.Wrapf RootError.ErrInvalidValidatorSet)
      ∧ checkValidity d cs consState header now w
        = (some (Error.Wrapf RootError.ErrInvalidValidatorSet),
            w.record Call.checkValidity) := by
  have h : checkTrustedHeader d header consState
      = some (Error.Wrapf RootError.ErrInvalidValidatorSet) := by
    unfold checkTrustedHeader
    simp only [hheight, ne_eq, not_true_eq_false, if_false]
    rw [if_pos (fun heq => hhash heq.symm)]
  exact ⟨h, checkValidity_of_trusted_error d cs consState header now w _ h⟩

/-- A header anchored at height 10 whose trusted validators hash to `[10]`,
against an anchor of height 10 that stores the hash `[77]`. -/
theorem checkTrustedHeader_hash_mismatch_witness :
    checkTrustedHeader sampleImports (sampleHeader 11 1001 10)
        { sampleAnchor with NextValidatorsHash := [77] }
        = some (Error.Wrapf RootError.ErrInvalidValidatorSet)
      ∧ checkValidity sampleImports sampleClient
          { sampleAnchor with NextValidatorsHash := [77] } (sampleHeader 11 1001 10) 1002
          sampleWorld
        = (some (Error.Wrapf RootError.ErrInvalidValidatorSet),
            sampleWorld.record Call.checkValidity) :=
  checkTrustedHeader_hash_mismatch sampleImports sampleClient
    { sampleAnchor with NextValidatorsHash := [77] } (sampleHeader 11 1001 10) 1002
    sampleWorld (by decide) (by decide)

/-- C4, as stated, fails: for a header with trusted height 12 and a consensus
state of height 10, whose hashes agree, `checkTrustedHeader` returns
`ErrInvalidHeaderHeight`, which is not the invalid-validator-set error. -/
theorem checkTrustedHeader_height_counterexample :
    (sampleHeader 13 1001 12).TrustedHeight ≠ sampleAnchor.Height
      ∧ checkTrustedHeader sampleImports (sampleHeader 13 1001 12) sampleAnchor
          = some (Error.Wrapf RootError.ErrInvalidHeaderHeight)
      ∧ checkTrustedHeader sampleImports (sampleHeader 13 1001 12) sampleAnchor
          ≠ some (Error.Wrapf RootError.ErrInvalidValidatorSet) := by
  decide

/-- C4, amended: for every header and consensus state with
`header.TrustedHeight` different from `consState.Height`, `checkTrustedHeader`
fails with the invalid-header-height error `ErrInvalidHeaderHeight`. -/
theorem checkTrustedHeader_height_mismatch (d : Imports) (header : Header)
    (consState : ConsensusState) (hne : header.TrustedHeight ≠ consState.Height) :
    checkTrustedHeader d header consState
      = some (Error.Wrapf RootError.ErrInvalidHeaderHeight) := by
  unfold checkTrustedHeader
  rw [if_pos hne]

/-- A header with trusted height 9 against the anchor of height 10. -/
theorem checkTrustedHeader_height_mismatch_witness :
    checkTrustedHeader sampleImports (sampleHeader 11 1001 9) sampleAnchor
      = some (Error.Wrapf RootError.ErrInvalidHeaderHeight) :=
  checkTrustedHeader_height_mismatch sampleImports (sampleHeader 11 1001 9) sampleAnchor
    (by decide)

/-- C5: for every Tendermint header and every client store with no entry under
the consensus-state key of `header.TrustedHeight`, `CheckHeaderAndUpdateState`
returns no state and the error `ErrConsensusStateNotFound`, whatever the rest of
the header, the codec and the collaborators are; the only call it has made is
the read of the store, so neither the codec nor the validity check has run. -/
theorem CheckHeaderAndUpdateState_anchor_not_found (d : Imports) (cs : ClientState)
    (ctx : Context) (cdc : BinaryMarshaler) (header : Header) (w : World)
    (habsent : w.store (d.KeyConsensusState header.TrustedHeight) = none) :
    CheckHeaderAndUpdateState d cs ctx cdc (ExportedHeader.tendermint header) w
      = (Outcome.returned
          { clientState := none, consensusState := none
            err := some (Error.Wrapf RootError.ErrConsensusStateNotFound) },
          { store := w.store
            trace := w.trace ++ [Call.Get (d.KeyConsensusState header.TrustedHeight)] }) := by
  simp only [CheckHeaderAndUpdateState, World.Get, habsent, World.record]

/-- A header anchored at height 7, under which the sample store holds
nothing. -/
theorem CheckHeaderAndUpdateState_anchor_not_found_witness :
    sampleWorld.store (sampleImports.KeyConsensusState (sampleHeader 11 1001 7).TrustedHeight)
        = none
      ∧ CheckHeaderAndUpdateState sampleImports sampleClient { BlockTime := 1002 } sampleCodec
          (ExportedHeader.tendermint (sampleHeader 11 1001 7)) sampleWorld
        = (Outcome.returned
            { clientState := none, consensusState := none
              err := some (Error.Wrapf RootError.ErrConsensusStateNotFound) },
            { store := sampleWorld.store
              trace := sampleWorld.trace
                ++ [Call.Get (sampleImports.KeyConsensusState
                      (sampleHeader 11 1001 7).TrustedHeight)] }) :=
  ⟨by decide,
    CheckHeaderAndUpdateState_anchor_not_found sampleImports sampleClient
      { BlockTime := 1002 } sampleCodec (sampleHeader 11 1001 7) sampleWorld (by decide)⟩

/-- C6: for every client state and header, the consensus state that `update`
produces has the height of the header (the unsigned value of `header.Height`,
which is `header.Height` itself when that lies between 0 and 2^63), the time of
the header, the Merkle root built from the app hash of the header and the
`NextValidatorsHash` of the header; and it is the consensus state that every
successful `CheckHeaderAndUpdateState` returns. -/
theorem update_consensus_state (d : Imports) (cs : ClientState) (ctx : Context)
    (cdc : BinaryMarshaler) (header : Header) (w : World) :
    (update cs header).2
        = { Height := header.GetHeight
            Timestamp := header.Time
            Root := NewMerkleRoot header.AppHash
            NextValidatorsHash := header.NextValidatorsHash }
      ∧ (0 ≤ header.Height → header.Height < 2 ^ 63 →
          (((update cs header).2.Height : Nat) : Int) = header.Height)
      ∧ (∀ r, (CheckHeaderAndUpdateState d cs ctx cdc (ExportedHeader.tendermint header) w).1
            = Outcome.returned r → r.err = none →
          r.consensusState = some (update cs header).2) := by
  refine ⟨rfl, ?_, ?_⟩
  · intro h0 h1
    show ((uint64 header.Height : Nat) : Int) = header.Height
    unfold uint64
    have hlt : header.Height < ((2 ^ 64 : Nat) : Int) := by
      have : ((2 ^ 64 : Nat) : Int) = 2 ^ 64 := by norm_num
      rw [this]
      exact lt_trans h1 (by norm_num)
    rw [Int.emod_eq_of_lt h0 hlt]
    exact Int.toNat_of_nonneg h0
  · intro r hr herr
    rcases CheckHeaderAndUpdateState_outcome d cs ctx cdc (ExportedHeader.tendermint header) w
      with hp | ⟨e, he⟩ | ⟨h, hh, hok⟩
    · rw [hp] at hr; cases hr
    · rw [he] at hr
      cases hr
      cases herr
    · cases hh
      rw [hok] at hr
      cases hr
      rfl

/-- The successful update by the header of height 11, time 1001 and app hash
`[8]`, anchored at the stored height 10: the consensus state returned is that
of `update`, of height 11. -/
theorem update_consensus_state_witness :
    (0 : Int) ≤ (sampleHeader 11 1001 10).Height
      ∧ (((update sampleClient (sampleHeader 11 1001 10)).2.Height : Nat) : Int)
          = (sampleHeader 11 1001 10).Height
      ∧ (CheckHeaderAndUpdateState sampleImports sampleClient { BlockTime := 1002 } sampleCodec
          (ExportedHeader.tendermint (sampleHeader 11 1001 10)) sampleWorld).1
          = Outcome.returned
              { clientState := some (update sampleClient (sampleHeader 11 1001 10)).1
                consensusState := some (update sampleClient (sampleHeader 11 1001 10)).2
                err := none }
      ∧ ({ clientState := some (update sampleClient (sampleHeader 11 1001 10)).1
           consensusState := some (update sampleClient (sampleHeader 11 1001 10)).2
           err := none } : Returned).consensusState
          = some (update sampleClient (sampleHeader 11 1001 10)).2 :=
  ⟨by decide,
    (update_consensus_state sampleImports sampleClient { BlockTime := 1002 } sampleCodec
      (sampleHeader 11 1001 10) sampleWorld).2.1 (by decide) (by decide),
    by decide,
    (update_consensus_state sampleImports sampleClient { BlockTime := 1002 } sampleCodec
      (sampleHeader 11 1001 10) sampleWorld).2.2 _ (by decide) rfl⟩

/-- C7: in every outcome of `CheckHeaderAndUpdateState` the client store is
exactly as it was before the call and the trace of calls is only extended; and
whenever the call returns an error, it returns no client state and no consensus
state. -/
theorem CheckHeaderAndUpdateState_error_leaves_state (d : Imports) (cs : ClientState)
    (ctx : Context) (cdc : BinaryMarshaler) (eh : ExportedHeader) (w : World) :
    (CheckHeaderAndUpdateState d cs ctx cdc eh w).2.store = w.store
      ∧ w.trace <+: (CheckHeaderAndUpdateState d cs ctx cdc eh w).2.trace
      ∧ (∀ r, (CheckHeaderAndUpdateState d cs ctx cdc eh w).1 = Outcome.returned r →
          r.err ≠ none → r.clientState = none ∧ r.consensusState = none) := by
  refine ⟨CheckHeaderAndUpdateState_store d cs ctx cdc eh w,
    CheckHeaderAndUpdateState_trace d cs ctx cdc eh w, ?_⟩
  intro r hr herr
  rcases CheckHeaderAndUpdateState_outcome d cs ctx cdc eh w
    with hp | ⟨e, he⟩ | ⟨h, _, hok⟩
  · rw [hp] at hr; cases hr
  · rw [he] at hr
    cases hr
    exact ⟨rfl, rfl⟩
  · rw [hok] at hr
    cases hr
    exact absurd rfl herr

/-- The header of height 10 anchored at height 10 is rejected: nothing is
returned but the error, and the store is as before. -/
theorem CheckHeaderAndUpdateState_error_leaves_state_witness :
    (CheckHeaderAndUpdateState sampleImports sampleClient { BlockTime := 1002 } sampleCodec
        (ExportedHeader.tendermint (sampleHeader 10 1001 10)) sampleWorld).2.store
        = sampleWorld.store
      ∧ (CheckHeaderAndUpdateState sampleImports sampleClient { BlockTime := 1002 } sampleCodec
          (ExportedHeader.tendermint (sampleHeader 10 1001 10)) sampleWorld).1
          = Outcome.returned
              { clientState := none, consensusState := none
                err := some (Error.Wrapf RootError.ErrInvalidHeader) }
      ∧ ({ clientState := none, consensusState := none
           err := some (Error.Wrapf RootError.ErrInvalidHeader) } : Returned).clientState = none
      ∧ ({ clientState := none, consensusState := none
           err := some (Error.Wrapf RootError.ErrInvalidHeader) } : Returned).consensusState
          = none :=
  ⟨(CheckHeaderAndUpdateState_error_leaves_state sampleImports sampleClient
      { BlockTime := 1002 } sampleCodec (ExportedHeader.tendermint (sampleHeader 10 1001 10))
      sampleWorld).1,
    by decide,
    (CheckHeaderAndUpdateState_error_leaves_state sampleImports sampleClient
      { BlockTime := 1002 } sampleCodec (ExportedHeader.tendermint (sampleHeader 10 1001 10))
      sampleWorld).2.2 _ (by decide) (by decide)⟩

/-- C8: with the light-client verification of the specification, for every
client state, anchor consensus state, header and current time with
`now - consState.Timestamp` at least the trusting period, `checkValidity`
fails, whatever the signature tests answer; and when the trusted-anchor check,
the height ordering, the quorum, the validator-set hash and the two other time
checks all pass, the error is that of the expired anchor. -/
theorem checkValidity_anchor_expired (d : Imports)
    (trustedQuorum : String → TmFraction → tmtypes.ValidatorSet → tmtypes.SignedHeader → Bool)
    (supermajority : String → tmtypes.ValidatorSet → tmtypes.SignedHeader → Bool)
    (cs : ClientState) (consState : ConsensusState) (header : Header) (now : Time) (w : World)
    (hexpired : cs.TrustingPeriod ≤ now - consState.Timestamp) :
    (checkValidity (withLiteVerify d trustedQuorum supermajority) cs consState header now w).1
        ≠ none
      ∧ (checkTrustedHeader d header consState = none →
          consState.Height < header.GetHeight →
          trustedQuorum cs.GetChainID cs.TrustLevel.ToTendermint header.TrustedValidators
            header.SignedHeader = true →
          d.Hash header.ValidatorSet = header.NextValidatorsHash →
          consState.Timestamp < header.Time →
          header.Time ≤ now + cs.MaxClockDrift →
          (checkValidity (withLiteVerify d trustedQuorum supermajority) cs consState header
            now w).1 = some (Error.Wrap VerifyError.anchorExpired)) := by
  have hnot : ¬ (now - consState.Timestamp < cs.TrustingPeriod) := not_lt.mpr hexpired
  constructor
  · intro hnone
    rw [checkValidity_eq_none_iff] at hnone
    obtain ⟨_, _, hv⟩ := hnone
    simp only [withLiteVerify, liteVerify, trustedSignedHeader] at hv
    split at hv
    · cases hv
    split at hv
    · cases hv
    split at hv
    · cases hv
    split at hv
    · cases hv
    cases hv
  · intro htrusted habove hq hhash htime hdrift
    have htrusted2 : checkTrustedHeader (withLiteVerify d trustedQuorum supermajority)
        header consState = none := htrusted
    have hhash2 : d.Hash header.ValidatorSet = header.SignedHeader.Header.NextValidatorsHash :=
      hhash
    have htime2 : header.SignedHeader.Header.Time > consState.Timestamp := htime
    have hdrift2 : header.SignedHeader.Header.Time ≤ now + cs.MaxClockDrift := hdrift
    rw [checkValidity_of_above _ cs consState header now w htrusted2 habove]
    simp only [withLiteVerify, liteVerify, trustedSignedHeader]
    rw [if_neg (not_not.mpr (Or.inl hq)), if_neg (not_not.mpr hhash2),
      if_neg (not_not.mpr htime2), if_neg (not_not.mpr hdrift2), if_pos hnot]
    rfl

/-- The header of height 11 and time 1001 against the anchor of time 1000, at
the time 1100 and with the trusting period 100: every other check passes and
the anchor has expired. -/
theorem checkValidity_anchor_expired_witness :
    sampleClient.TrustingPeriod ≤ 1100 - sampleAnchor.Timestamp
      ∧ (checkValidity (withLiteVerify sampleImports (fun _ _ _ _ => true) (fun _ _ _ => true))
          sampleClient sampleAnchor (sampleHeader 11 1001 10) 1100 sampleWorld).1
          = some (Error.Wrap VerifyError.anchorExpired) :=
  ⟨by decide,
    (checkValidity_anchor_expired sampleImports (fun _ _ _ _ => true) (fun _ _ _ => true)
      sampleClient sampleAnchor (sampleHeader 11 1001 10) 1100 sampleWorld (by decide)).2
      (by decide) (by decide) rfl (by decide) (by decide) (by decide)⟩

/-- C9: the verdict of `checkValidity` does not depend on the latest height of
the client: replacing `LatestHeight` by any other value, with the same anchor
consensus state, header and current time, gives the same result; so a header
below the latest height of the client is accepted whenever the trusted-anchor
check passes, the header is above its own anchor and the light-client
verification accepts. -/
theorem checkValidity_latest_height_irrelevant (d : Imports) (cs : ClientState)
    (consState : ConsensusState) (header : Header) (now : Time) (w : World) :
    (∀ latest : Nat,
        checkValidity d { cs with LatestHeight := latest } consState header now w
          = checkValidity d cs consState header now w)
      ∧ (header.GetHeight < cs.LatestHeight →
          checkTrustedHeader d header consState = none →
          consState.Height < header.GetHeight →
          d.Verify cs.GetChainID (trustedSignedHeader consState) header.TrustedValidators
            header.SignedHeader header.ValidatorSet cs.TrustingPeriod now cs.MaxClockDrift
            cs.TrustLevel.ToTendermint = none →
          (checkValidity d cs consState header now w).1 = none) := by
  constructor
  · intro latest
    rfl
  · intro _ htrusted habove hverify
    exact (checkValidity_eq_none_iff d cs consState header now w).mpr
      ⟨htrusted, habove, hverify⟩

/-- The header of height 11, below the latest height 20 of the client and above
its anchor of height 10, is accepted. -/
theorem checkValidity_latest_height_irrelevant_witness :
    (sampleHeader 11 1001 10).GetHeight < sampleClient.LatestHeight
      ∧ sampleAnchor.Height < (sampleHeader 11 1001 10).GetHeight
      ∧ (checkValidity sampleImports sampleClient sampleAnchor (sampleHeader 11 1001 10) 1002
          sampleWorld).1 = none :=
  ⟨by decide, by decide,
    (checkValidity_latest_height_irrelevant sampleImports sampleClient sampleAnchor
      (sampleHeader 11 1001 10) 1002 sampleWorld).2
      (by decide) (by decide) (by decide) (by decide)⟩

/-- C10: for every header that is not a Tendermint header,
`CheckHeaderAndUpdateState` returns no state and the error `ErrInvalidHeader`,
and the world is as before, so the store has not been read; and for every
Tendermint header whose anchor is stored and decodes to a consensus state that
is not a Tendermint one, it returns no state and the error
`ErrInvalidConsensus`, and the only calls it has made are the read of the store
and the decoding, so no validity check has run. -/
theorem CheckHeaderAndUpdateState_wrong_type (d : Imports) (cs : ClientState) (ctx : Context)
    (cdc : BinaryMarshaler) (w : World) :
    (∀ headerTag : Nat,
        CheckHeaderAndUpdateState d cs ctx cdc (ExportedHeader.other headerTag) w
          = (Outcome.returned
              { clientState := none, consensusState := none
                err := some (Error.Wrapf RootError.ErrInvalidHeader) }, w))
      ∧ (∀ (header : Header) (bz : Bytes) (tag : Nat),
          w.store (d.KeyConsensusState header.TrustedHeight) = some bz →
          cdc.MustUnmarshalConsensusState bz = some (ExportedConsensusState.other tag) →
          CheckHeaderAndUpdateState d cs ctx cdc (ExportedHeader.tendermint header) w
            = (Outcome.returned
                { clientState := none, consensusState := none
                  err := some (Error.Wrapf RootError.ErrInvalidConsensus) },
                { store := w.store
                  trace := w.trace ++ [Call.Get (d.KeyConsensusState header.TrustedHeight)]
                    ++ [Call.MustUnmarshalConsensusState bz] })) := by
  constructor
  · intro headerTag
    rfl
  · intro header bz tag hget hdec
    simp only [CheckHeaderAndUpdateState, World.Get, hget, World.record, hdec]

/-- A header of another client type, and a Tendermint header anchored at height
11, where the sample store holds a consensus state of another client type. -/
theorem CheckHeaderAndUpdateState_wrong_type_witness :
    CheckHeaderAndUpdateState sampleImports sampleClient { BlockTime := 1002 } sampleCodec
        (ExportedHeader.other 4) sampleWorld
        = (Outcome.returned
            { clientState := none, consensusState := none
              err := some (Error.Wrapf RootError.ErrInvalidHeader) }, sampleWorld)
      ∧ CheckHeaderAndUpdateState sampleImports sampleClient { BlockTime := 1002 } sampleCodec
          (ExportedHeader.tendermint (sampleHeader 12 1001 11)) sampleWorld
        = (Outcome.returned
            { clientState := none, consensusState := none
              err := some (Error.Wrapf RootError.ErrInvalidConsensus) },
            { store := sampleWorld.store
              trace := sampleWorld.trace
                ++ [Call.Get (sampleImports.KeyConsensusState
                      (sampleHeader 12 1001 11).TrustedHeight)]
                ++ [Call.MustUnmarshalConsensusState [1]] }) :=
  ⟨(CheckHeaderAndUpdateState_wrong_type sampleImports sampleClient { BlockTime := 1002 }
      sampleCodec sampleWorld).1 4,
    (CheckHeaderAndUpdateState_wrong_type sampleImports sampleClient { BlockTime := 1002 }
      sampleCodec sampleWorld).2 (sampleHeader 12 1001 11) [1] 6 (by decide) (by decide)⟩

/-- C11: in every successful call of `QueryConnectionClientState` or
`QueryConnectionConsensusState` with `prove = true`, the response is built from
the state, the proof and the proof height that one authenticated read of the
ABCI store returned, the only such read of the call; of the preceding
unauthenticated read only the client identifier (and, for the consensus state,
the height that the authenticated read is asked for) is used, and its state,
proof and proof height do not enter the response. In every successful call with
`prove = false` the response is the response of the unauthenticated read, and
no authenticated read is made. -/
theorem QueryConnection_state_from_one_ABCI_read (d : QueryImports) (clientCtx : ClientContext)
    (connectionID : String) (height : Nat) :
    (∀ resp, (QueryConnectionClientState d clientCtx connectionID true).1 = Except.ok resp →
        ∃ res clientState proof proofHeight,
          clientCtx.ConnectionClientState connectionID = Except.ok res
          ∧ clientCtx.QueryClientStateABCI res.IdentifiedClientState.Id
              = Except.ok (clientState, proof, proofHeight)
          ∧ resp = d.NewQueryConnectionClientStateResponse
              (d.NewIdentifiedClientState res.IdentifiedClientState.Id clientState) proof
              (int64 proofHeight)
          ∧ (QueryConnectionClientState d clientCtx connectionID true).2
              = [QueryCall.ConnectionClientState connectionID,
                  QueryCall.QueryClientStateABCI res.IdentifiedClientState.Id])
      ∧ (∀ resp, (QueryConnectionClientState d clientCtx connectionID false).1 = Except.ok resp →
          clientCtx.ConnectionClientState connectionID = Except.ok resp
          ∧ (QueryConnectionClientState d clientCtx connectionID false).2
              = [QueryCall.ConnectionClientState connectionID])
      ∧ (∀ resp,
          (QueryConnectionConsensusState d clientCtx connectionID height true).1
            = Except.ok resp →
          ∃ res unproved consensusState proof proofHeight anyConsensusState,
            clientCtx.ConnectionConsensusState connectionID height = Except.ok res
            ∧ d.UnpackConsensusState res.ConsensusState = Except.ok unproved
            ∧ clientCtx.QueryConsensusStateABCI res.ClientId (d.GetHeight unproved)
                = Except.ok (consensusState, proof, proofHeight)
            ∧ d.PackConsensusState consensusState = Except.ok anyConsensusState
            ∧ resp = d.NewQueryConnectionConsensusStateResponse res.ClientId anyConsensusState
                (d.GetHeight consensusState) proof (int64 proofHeight)
            ∧ (QueryConnectionConsensusState d clientCtx connectionID height true).2
                = [QueryCall.ConnectionConsensusState connectionID height,
                    QueryCall.QueryConsensusStateABCI res.ClientId (d.GetHeight unproved)])
      ∧ (∀ resp,
          (QueryConnectionConsensusState d clientCtx connectionID height false).1
            = Except.ok resp →
          clientCtx.ConnectionConsensusState connectionID height = Except.ok resp
          ∧ (QueryConnectionConsensusState d clientCtx connectionID height false).2
              = [QueryCall.ConnectionConsensusState connectionID height]) := by
  refine ⟨?_, ?_, ?_, ?_⟩
  · intro resp hresp
    unfold QueryConnectionClientState at hresp ⊢
    cases hq : clientCtx.ConnectionClientState connectionID with
    | error err => simp [hq] at hresp
    | ok res =>
      cases ha : clientCtx.QueryClientStateABCI res.IdentifiedClientState.Id with
      | error err => simp [hq, ha] at hresp
      | ok r =>
        obtain ⟨clientState, proof, proofHeight⟩ := r
        simp only [hq, ha, if_true, Except.ok.injEq] at hresp
        exact ⟨res, clientState, proof, proofHeight, rfl, ha, hresp.symm, by simp [ha]⟩
  · intro resp hresp
    unfold QueryConnectionClientState at hresp ⊢
    cases hq : clientCtx.ConnectionClientState connectionID with
    | error err => simp [hq] at hresp
    | ok res =>
      simp only [hq, Bool.false_eq_true, if_false, Except.ok.injEq] at hresp
      simp [hresp]
  · intro resp hresp
    unfold QueryConnectionConsensusState at hresp ⊢
    cases hq : clientCtx.ConnectionConsensusState connectionID height with
    | error err => simp [hq] at hresp
    | ok res =>
      cases hu : d.UnpackConsensusState res.ConsensusState with
      | error err => simp [hq, hu] at hresp
      | ok unproved =>
        cases ha : clientCtx.QueryConsensusStateABCI res.ClientId (d.GetHeight unproved) with
        | error err => simp [hq, hu, ha] at hresp
        | ok r =>
          obtain ⟨consensusState, proof, proofHeight⟩ := r
          cases hp : d.PackConsensusState consensusState with
          | error err => simp [hq, hu, ha, hp] at hresp
          | ok anyConsensusState =>
            simp only [hq, hu, ha, hp, if_true, Except.ok.injEq] at hresp
            exact ⟨res, unproved, consensusState, proof, proofHeight, anyConsensusState,
              rfl, hu, ha, hp, hresp.symm, by simp [hu, ha, hp]⟩
  · intro resp hresp
    unfold QueryConnectionConsensusState at hresp ⊢
    cases hq : clientCtx.ConnectionConsensusState connectionID height with
    | error err => simp [hq] at hresp
    | ok res =>
      cases hu : d.UnpackConsensusState res.ConsensusState with
      | error err => simp [hq, hu] at hresp
      | ok unproved =>
        simp only [hq, hu, Bool.false_eq_true, if_false, Except.ok.injEq] at hresp
        subst hresp
        simp [hu]

/-- On the sample node, whose unauthenticated reads answer from height 5 and
whose authenticated reads answer from height 7: the proved client-state
response carries the latest height 21, the proof `[1, 2]` and the proof height
7 of the authenticated read, and the unproved response is that of the
unauthenticated read. -/
theorem QueryConnection_state_from_one_ABCI_read_witness :
    (QueryConnectionClientState sampleQueryImports sampleClientContext "connection-a" true).1
        = Except.ok
            { IdentifiedClientState :=
                { Id := "client-a", ClientState := { TypeUrl := "tendermint", Value := [21] } }
              Proof := [1, 2], ProofPath := "clientState", ProofHeight := 7 }
      ∧ (∃ res clientState proof proofHeight,
          sampleClientContext.ConnectionClientState "connection-a" = Except.ok res
          ∧ sampleClientContext.QueryClientStateABCI res.IdentifiedClientState.Id
              = Except.ok (clientState, proof, proofHeight)
          ∧ ({ IdentifiedClientState :=
                { Id := "client-a", ClientState := { TypeUrl := "tendermint", Value := [21] } }
               Proof := [1, 2], ProofPath := "clientState", ProofHeight := 7 } :
                QueryConnectionClientStateResponse)
              = sampleQueryImports.NewQueryConnectionClientStateResponse
                  (sampleQueryImports.NewIdentifiedClientState res.IdentifiedClientState.Id
                    clientState) proof (int64 proofHeight)
          ∧ (QueryConnectionClientState sampleQueryImports sampleClientContext "connection-a"
              true).2
              = [QueryCall.ConnectionClientState "connection-a",
                  QueryCall.QueryClientStateABCI res.IdentifiedClientState.Id])
      ∧ (QueryConnectionClientState sampleQueryImports sampleClientContext "connection-a"
          false).2 = [QueryCall.ConnectionClientState "connection-a"]
      ∧ (QueryConnectionConsensusState sampleQueryImports sampleClientContext "connection-a" 10
          true).1
        = Except.ok
            { ConsensusState := { TypeUrl := "tendermint", Value := [10, 1001] }
              ClientId := "client-a", Proof := [3, 4], ProofPath := "consensusState"
              ProofHeight := 7 }
      ∧ (QueryConnectionConsensusState sampleQueryImports sampleClientContext "connection-a" 10
          false).2 = [QueryCall.ConnectionConsensusState "connection-a" 10] :=
  ⟨rfl,
    (QueryConnection_state_from_one_ABCI_read sampleQueryImports sampleClientContext
      "connection-a" 10).1 _ rfl,
    ((QueryConnection_state_from_one_ABCI_read sampleQueryImports sampleClientContext
      "connection-a" 10).2.1 _ rfl).2,
    rfl,
    ((QueryConnection_state_from_one_ABCI_read sampleQueryImports sampleClientContext
      "connection-a" 10).2.2.2 _ rfl).2⟩

/-- C12: the light-client verification is never reached with an unbound anchor:
for every input on which `checkValidity` calls `lite.Verify` (the call appears
in the trace, which did not hold it before), `header.TrustedHeight` equals
`consState.Height`, the trusted validators of the header hash to
`consState.NextValidatorsHash`, and the height of the header is strictly
greater than `consState.Height`. -/
theorem checkValidity_Verify_needs_bound_anchor (d : Imports) (cs : ClientState)
    (consState : ConsensusState) (header : Header) (now : Time) (w : World)
    (hfresh : Call.Verify ∉ w.trace)
    (hcall : Call.Verify ∈ (checkValidity d cs consState header now w).2.trace) :
    header.TrustedHeight = consState.Height
      ∧ d.Hash header.TrustedValidators = consState.NextValidatorsHash
      ∧ consState.Height < header.GetHeight := by
  cases h : checkTrustedHeader d header consState with
  | some e =>
    rw [checkValidity_of_trusted_error d cs consState header now w e h] at hcall
    simp [World.record, hfresh] at hcall
  | none =>
    by_cases hle : header.GetHeight ≤ consState.Height
    · rw [checkValidity_of_not_above d cs consState header now w h hle] at hcall
      simp [World.record, hfresh] at hcall
    · obtain ⟨hheight, hhash⟩ := (checkTrustedHeader_eq_none_iff d header consState).mp h
      exact ⟨hheight, hhash.symm, Nat.not_le.mp hle⟩

/-- The header of height 11 anchored at the consensus state of height 10
reaches the light-client verification, and its anchor is bound. -/
theorem checkValidity_Verify_needs_bound_anchor_witness :
    Call.Verify ∈ (checkValidity sampleImports sampleClient sampleAnchor
        (sampleHeader 11 1001 10) 1002 sampleWorld).2.trace
      ∧ (sampleHeader 11 1001 10).TrustedHeight = sampleAnchor.Height
      ∧ sampleImports.Hash (sampleHeader 11 1001 10).TrustedValidators
          = sampleAnchor.NextValidatorsHash
      ∧ sampleAnchor.Height < (sampleHeader 11 1001 10).GetHeight :=
  ⟨by decide,
    checkValidity_Verify_needs_bound_anchor sampleImports sampleClient sampleAnchor
      (sampleHeader 11 1001 10) 1002 sampleWorld (by decide) (by decide)⟩

/-- C13: for every client state and header, `update` changes no field of the
client state other than `LatestHeight`: the chain identifier, trust level,
trusting period, unbonding period, max clock drift and proof specifications of
the returned client state are those of the input, also for the client state
that a successful `CheckHeaderAndUpdateState` returns; so a client state with
`TrustingPeriod < UnbondingPeriod` still has it after the update. -/
theorem update_changes_only_LatestHeight (d : Imports) (cs : ClientState) (ctx : Context)
    (cdc : BinaryMarshaler) (header : Header) (w : World) :
    (update cs header).1 = { cs with LatestHeight := (update cs header).1.LatestHeight }
      ∧ ((update cs header).1.ChainID = cs.ChainID
        ∧ (update cs header).1.TrustLevel = cs.TrustLevel
        ∧ (update cs header).1.TrustingPeriod = cs.TrustingPeriod
        ∧ (update cs header).1.UnbondingPeriod = cs.UnbondingPeriod
        ∧ (update cs header).1.MaxClockDrift = cs.MaxClockDrift
        ∧ (update cs header).1.ProofSpecs = cs.ProofSpecs)
      ∧ (cs.TrustingPeriod < cs.UnbondingPeriod →
          (update cs header).1.TrustingPeriod < (update cs header).1.UnbondingPeriod)
      ∧ (∀ r newClientState,
          (CheckHeaderAndUpdateState d cs ctx cdc (ExportedHeader.tendermint header) w).1
            = Outcome.returned r →
          r.clientState = some newClientState →
          newClientState = { cs with LatestHeight := newClientState.LatestHeight }
            ∧ (cs.TrustingPeriod < cs.UnbondingPeriod →
                newClientState.TrustingPeriod < newClientState.UnbondingPeriod)) := by
  have hu := update_client_state cs header
  have hframe : (update cs header).1
      = { cs with LatestHeight := (update cs header).1.LatestHeight } := by
    rw [hu]
  refine ⟨hframe, ?_, ?_, ?_⟩
  · rw [hu]
    exact ⟨rfl, rfl, rfl, rfl, rfl, rfl⟩
  · intro hlt
    rw [hu]
    exact hlt
  · intro r newClientState hr hcs
    rcases CheckHeaderAndUpdateState_outcome d cs ctx cdc (ExportedHeader.tendermint header) w
      with hp | ⟨e, he⟩ | ⟨h, hh, hok⟩
    · rw [hp] at hr; cases hr
    · rw [he] at hr
      cases hr
      cases hcs
    · cases hh
      rw [hok] at hr
      cases hr
      cases hcs
      refine ⟨hframe, ?_⟩
      intro hlt
      rw [hu]
      exact hlt

/-- The sample client, whose trusting period 100 is below its unbonding period
200, updated by the header of height 25: only the latest height changes, from
20 to 25. -/
theorem update_changes_only_LatestHeight_witness :
    sampleClient.TrustingPeriod < sampleClient.UnbondingPeriod
      ∧ (update sampleClient (sampleHeader 25 1001 10)).1.LatestHeight = 25
      ∧ (update sampleClient (sampleHeader 25 1001 10)).1.TrustingPeriod
          < (update sampleClient (sampleHeader 25 1001 10)).1.UnbondingPeriod :=
  ⟨by decide, by decide,
    (update_changes_only_LatestHeight sampleImports sampleClient { BlockTime := 1002 }
      sampleCodec (sampleHeader 25 1001 10) sampleWorld).2.2.1 (by decide)⟩

end ibc
